import Mathlib

/-!
Verification development for the MeTroV sounding-retrieval core
(src/sondeo.py, src/sounding_sources.py, src/app.py).

The Python code is shallowly embedded:
  * Python strings are Lean `String`s; character slicing `s[a:b]` is
    `pySlice`, `int(...)` is `pyInt?` (returning `none` where Python
    raises `ValueError`), `s[-n:]` is `pyLastN`.
  * Physical float values are modelled as rationals `ℚ`; every division
    performed by the code (by 100.0 and 10.0 on integer-coded fields) is
    exact in binary floating point, so `ℚ` is value-faithful here.
  * `NaN` cells/fields are modelled as `Option ℚ` with `none` for `NaN`.
  * Fallible code returns `Except`; a Python `raise` is `.error`.
  * Network fetches and the external `metpy.calc.wind_components`
    function are parameters of the embedded readers (`fetch`, `wc`).
-/

/-- Characters of `s` from index `a` (inclusive) to `b` (exclusive),
    modelling Python string slicing `s[a:b]` (clamping, never failing). -/
def pySlice (s : String) (a b : Nat) : String :=
  String.mk ((s.toList.drop a).take (b - a))

/-- Is `pre` a prefix of `l` (character lists)? -/
def isPreChars : List Char → List Char → Bool
  | [], _ => true
  | _ :: _, [] => false
  | a :: l₁, b :: l₂ => a == b && isPreChars l₁ l₂

/-- Does `needle` occur as a contiguous substring of `hay`?
    Models the Python `needle in hay` test on strings. -/
def charsContain (needle : List Char) : List Char → Bool
  | [] => isPreChars needle []
  | b :: l => isPreChars needle (b :: l) || charsContain needle l

/-- Python `needle in hay` for strings. -/
def strContains (hay needle : String) : Bool :=
  charsContain needle.toList hay.toList

/-- Python `s.startswith(pre)`. -/
def pyStartsWith (s pre : String) : Bool :=
  isPreChars pre.toList s.toList

/-- Parse a list of decimal digits to a natural number; `none` if empty
    or any character is not a digit. -/
def digitsToNat? (cs : List Char) : Option Nat :=
  if cs.isEmpty then none
  else if cs.all Char.isDigit then
    some (cs.foldl (fun n c => 10 * n + (c.toNat - 48)) 0)
  else none

/-- Whitespace characters stripped by Python's `str.strip()` (the ASCII
    ones; the data at hand only ever contains spaces). -/
def isPySpace (c : Char) : Bool :=
  c == ' ' || c == '\t' || c == '\n' || c == '\r' ||
  c == (Char.ofNat 11) || c == (Char.ofNat 12)

/-- Python `s.strip()` on the character list. -/
def pyStripChars (cs : List Char) : List Char :=
  ((cs.dropWhile isPySpace).reverse.dropWhile isPySpace).reverse

/-- Python `s.upper()` (on the ASCII letters used here). -/
def pyUpper (s : String) : String :=
  String.mk (s.toList.map Char.toUpper)

/-- Python `s.lower()` (on the ASCII letters used here). -/
def pyLower (s : String) : String :=
  String.mk (s.toList.map Char.toLower)

/-- Python `int(s)` on a string: strips surrounding whitespace, accepts an
    optional sign followed by decimal digits; `none` models the
    `ValueError` raised on any other content. -/
def pyInt? (s : String) : Option Int :=
  match pyStripChars s.toList with
  | '-' :: rest => (digitsToNat? rest).map (fun n => -(n : Int))
  | '+' :: rest => (digitsToNat? rest).map (fun n => (n : Int))
  | cs => (digitsToNat? cs).map (fun n => (n : Int))

/-- Python `s[-n:]`: the last `n` characters (the whole string when it is
    shorter than `n`). -/
def pyLastN (n : Nat) (s : String) : String :=
  String.mk (s.toList.drop (s.toList.length - n))

/-- Unit attached to the wind-speed values before the wind components are
    computed (a pint unit in the source: `units('m/s')` or `units.knots`). -/
inductive WindUnit where
  | mps
  | knots
deriving DecidableEq, Repr

/-- The value tuple `(p, T, Td, u, v)` returned by both readers: five
    aligned arrays plus the pint unit carried by the `u`/`v` arrays
    (m/s for IGRA, the inferred unit for UWyo). `none` entries model NaN. -/
structure Profile where
  p : List ℚ
  T : List ℚ
  Td : List (Option ℚ)
  u : List (Option ℚ)
  v : List (Option ℚ)
  uvUnit : WindUnit
deriving DecidableEq, Repr

instance : Inhabited Profile := ⟨⟨[], [], [], [], [], .mps⟩⟩

/-- The index permutation `np.argsort(ps)[::-1]` (descending order of the
    values of `ps`); realised with insertion sort on `List.range`. -/
def argsortDesc (ps : List ℚ) : List Nat :=
  List.insertionSort (fun i j => ps.getD j 0 ≤ ps.getD i 0) (List.range ps.length)

/-- NumPy fancy indexing `xs[idx]` with a default for out-of-range
    indices (never hit on the indices produced by `argsortDesc`). -/
def applyIdx (dflt : α) (xs : List α) (idx : List Nat) : List α :=
  idx.map (fun i => xs.getD i dflt)

/-- Shared tail of both readers (sondeo.py lines 125-128 and 240-241):
    compute the descending-pressure permutation from the pressure list and
    apply the same permutation to all five lists. -/
def sortProfile (ps Ts : List ℚ) (Tds us vs : List (Option ℚ)) (wu : WindUnit) :
    Profile :=
  let idx := argsortDesc ps
  ⟨applyIdx 0 ps idx, applyIdx 0 Ts idx, applyIdx none Tds idx,
   applyIdx none us idx, applyIdx none vs idx, wu⟩

/-- Apply `mpcalc.wind_components` elementwise to aligned speed/direction
    lists; a NaN speed or direction yields NaN components (NaN propagation
    through sin/cos and multiplication). `wc` is the external library
    function on magnitudes. -/
def windComponentsOpt (wc : ℚ → ℚ → ℚ × ℚ) (spds dirs : List (Option ℚ)) :
    List (Option ℚ) × List (Option ℚ) :=
  let uvs := List.zipWith
    (fun sp di =>
      match sp, di with
      | some sp, some di => (some (wc sp di).1, some (wc sp di).2)
      | _, _ => ((none : Option ℚ), (none : Option ℚ)))
    spds dirs
  (uvs.map Prod.fst, uvs.map Prod.snd)

/-- Loop state of `lecturaSondeoIGRA` (sondeo.py lines 43-48): the
    `reading` flag, the declared block size, the number of data lines
    consumed from the current block, and the five accumulation lists. -/
structure IgraState where
  reading : Bool
  n_expected : Int
  n_read : Int
  ps : List ℚ
  Ts : List ℚ
  Tds : List (Option ℚ)
  wdirs : List (Option ℚ)
  wspds : List (Option ℚ)
deriving Repr

/-- Initial loop state (sondeo.py lines 43-48). -/
def igraInit : IgraState :=
  ⟨false, 0, 0, [], [], [], [], []⟩

/-- One iteration of the `for line in lines` loop of `lecturaSondeoIGRA`
    (sondeo.py lines 50-109).  A header line re-parses the timestamp at
    columns 13-26 and the line count at columns 32-36 (an unparseable
    count propagates Python's uncaught `ValueError`).  A data line is
    processed only while `reading` and under the declared count; a parse
    failure or failed pressure/temperature check skips the level but
    still increments `n_read`. -/
def igraStep (target : String) (s : IgraState) (line : String) :
    Except String IgraState :=
  if pyStartsWith line "#" then
    let time := pySlice line 13 26
    match pyInt? (pySlice line 32 36) with
    | none => .error "invalid literal for int() in header"
    | some nlines =>
      let reading := time == target
      .ok { s with reading := reading,
                   n_expected := if reading then nlines else 0,
                   n_read := 0 }
  else if !s.reading || s.n_read ≥ s.n_expected then
    .ok s
  else
    match pyInt? (pySlice line 9 15), pyInt? (pySlice line 22 27),
          pyInt? (pySlice line 34 39), pyInt? (pySlice line 40 45),
          pyInt? (pySlice line 46 51) with
    | some pres, some temp, some dtd, some wdir, some wspd =>
      if pres < 0 ∨ temp < -900 then
        .ok { s with n_read := s.n_read + 1 }
      else
        -- divisions written as mkRat for kernel computability;
        -- mkRat a b = (a : ℚ) / b (lemma mkRat_eq_divq below)
        let pres_val : ℚ := mkRat pres 100
        let temp_val : ℚ := mkRat temp 10
        let td_val : Option ℚ :=
          if dtd < -900 then none else some (mkRat (temp - dtd) 10)
        let wind : Option ℚ × Option ℚ :=
          if wdir < -900 ∨ wspd < -900 then (none, none)
          else (some (wdir : ℚ), some (mkRat wspd 10))
        .ok { s with ps := s.ps ++ [pres_val],
                     Ts := s.Ts ++ [temp_val],
                     Tds := s.Tds ++ [td_val],
                     wdirs := s.wdirs ++ [wind.1],
                     wspds := s.wspds ++ [wind.2],
                     n_read := s.n_read + 1 }
    | _, _, _, _, _ =>
      .ok { s with n_read := s.n_read + 1 }

/-- The whole `for line in lines` loop, from an arbitrary starting state. -/
def igraScanFrom (target : String) (s : IgraState) (lines : List String) :
    Except String IgraState :=
  lines.foldlM (igraStep target) s

/-- Tail of `lecturaSondeoIGRA` (sondeo.py lines 111-128): fewer than 10
    collected levels aborts; otherwise wind components are computed with
    the m/s unit and all five arrays are sorted by descending pressure. -/
def igraFinish (wc : ℚ → ℚ → ℚ × ℚ) (s : IgraState) : Except String Profile :=
  if s.ps.length < 10 then .error "IGRA sounding not available"
  else
    let uv := windComponentsOpt wc s.wspds s.wdirs
    .ok (sortProfile s.ps s.Ts s.Tds uv.1 uv.2 .mps)

/-- Target timestamp string built at sondeo.py line 41. -/
def mkTarget (yr mn dy hr : String) : String :=
  yr ++ " " ++ mn ++ " " ++ dy ++ " " ++ hr

/-- The parsing core of `lecturaSondeoIGRA` (sondeo.py lines 41-128),
    acting on the decoded lines of the fetched archive member (the
    network fetch and unzip of lines 28-39 are outside the embedding). -/
def lecturaSondeoIGRA (wc : ℚ → ℚ → ℚ × ℚ) (target : String)
    (lines : List String) : Except String Profile :=
  match igraScanFrom target igraInit lines with
  | .error e => .error e
  | .ok s => igraFinish wc s

/-- A parsed pandas DataFrame as produced by `pd.read_csv` at sondeo.py
    line 155: the column names and, per row, the numeric value each
    column yields under `pd.to_numeric(..., errors='coerce')` (`none`
    models the NaN produced for an unparseable cell).  A DataFrame is
    rectangular, so one cell function per row is faithful. -/
structure UwyoDF where
  columnNames : List String
  cells : List (String → Option ℚ)

/-- The distinct raise sites of `lecturaSondeoUWyo`; in the source all
    are `ValueError`s distinguished by their message text, here by
    constructor.  `msg` below recovers the message wording. -/
inductive UwyoErr where
  /-- Line 160: "Invalid or empty response with src=..." (empty table or
      no pressure column, e.g. an HTML error page). -/
  | invalidResponse (src : String)
  /-- Line 223: "Formato UWyo inesperado o columna faltante", carrying
      the columns actually found (the `KeyError` path of `get_col`). -/
  | unexpectedFormat (colsFound : List String)
  /-- Line 238: "Sondeo UWyo no disponible o vacío después de filtrar". -/
  | emptyAfterFilter
  /-- A `requests`/`read_csv` exception while fetching or parsing. -/
  | fetchFail (msg : String)
  /-- Line 249: "Could not download UWyo sounding with any source",
      carrying the last per-source exception. -/
  | allFailed (last : Option UwyoErr)

/-- Message text of each raise site (the Python `ValueError` payloads). -/
def UwyoErr.msg : UwyoErr → String
  | .invalidResponse src => "Invalid or empty response with src=" ++ src
  | .unexpectedFormat _ =>
      "Formato UWyo inesperado o columna faltante"
  | .emptyAfterFilter => "Sondeo UWyo no disponible o vacío después de filtrar"
  | .fetchFail m => m
  | .allFailed _ => "Could not download UWyo sounding with any source."

/-- The helper `get_col(candidates)` of sondeo.py lines 181-185: the
    first candidate present among the columns yields that column's
    coerced values and its name; `none` models the `KeyError`. -/
def get_col (df : UwyoDF) (candidates : List String) :
    Option (List (Option ℚ) × String) :=
  match candidates.find? (fun c => df.columnNames.contains c) with
  | some c => some (df.cells.map (fun r => r c), c)
  | none => none

/-- Candidate aliases for the wind-speed column (sondeo.py line 206). -/
def wspdCandidates : List String :=
  ["speed", "wind speed_m/s", "sknt", "wind speed_kn"]

/-- Wind-speed unit inference from the matched column name
    (sondeo.py lines 210-218). -/
def windUnitOf (wspd_col_name : String) : WindUnit :=
  if strContains wspd_col_name "m/s" then .mps
  else if strContains wspd_col_name "kn" || strContains wspd_col_name "sknt" then
    .knots
  else .knots

/-- The guard of sondeo.py line 158:
    `df.empty or "pressure" not in str(df.columns).lower()`.
    `df.empty` is true when the frame has no rows or no columns; the
    second test is whether "pressure" occurs as a substring of the
    lowercased rendering of the column list, i.e. of some column name
    (the rendering's separators and dtype suffix cannot contain it). -/
def uwyoGuardFails (df : UwyoDF) : Bool :=
  df.cells.isEmpty || df.columnNames.isEmpty ||
    !(df.columnNames.any (fun c => strContains (pyLower c) "pressure"))

/-- The row mask of sondeo.py line 226, as the list of kept row indices:
    `mask = (~p.isna()) & (~T.isna())`. -/
def uwyoKeep (df : UwyoDF) (p T : List (Option ℚ)) : List Nat :=
  (List.range df.cells.length).filter
    (fun i => (p.getD i none).isSome && (T.getD i none).isSome)

/-- Mask application `col[mask]` for a column whose kept entries are all
    numbers (pressure, temperature): unwrap them. -/
def cleanVals (keep : List Nat) (col : List (Option ℚ)) : List ℚ :=
  keep.map (fun i => (col.getD i none).getD 0)

/-- Mask application `col[mask]` for a column that may retain NaN
    entries (dew point, wind direction, wind speed). -/
def cleanOpts (keep : List Nat) (col : List (Option ℚ)) : List (Option ℚ) :=
  keep.map (fun i => col.getD i none)

/-- Body of one iteration of the `for src in sources` loop of
    `lecturaSondeoUWyo` (sondeo.py lines 144-241), given the outcome of
    the fetch-and-parse of lines 150-155 for this source. -/
def uwyoTryOne (wc : ℚ → ℚ → ℚ × ℚ) (fetched : Except String UwyoDF)
    (src : String) : Except UwyoErr (Profile × String) :=
  match fetched with
  | .error m => .error (.fetchFail m)
  | .ok df =>
    if uwyoGuardFails df then .error (.invalidResponse src)
    else
      match get_col df ["pressure", "pressure_hPa", "pres"],
            get_col df ["temperature", "temperature_C", "temp"],
            get_col df ["dew point", "dew point temperature_C", "dwpt"],
            get_col df ["direction", "wind direction_degree", "drct"],
            get_col df wspdCandidates with
      | some pc, some Tc, some Tdc, some dc, some sc =>
        let wind_units := windUnitOf sc.2
        let keep := uwyoKeep df pc.1 Tc.1
        let p_clean : List ℚ := cleanVals keep pc.1
        let T_clean : List ℚ := cleanVals keep Tc.1
        let Td_clean : List (Option ℚ) := cleanOpts keep Tdc.1
        let wdir_clean : List (Option ℚ) := cleanOpts keep dc.1
        let wspd_clean : List (Option ℚ) := cleanOpts keep sc.1
        let uv := windComponentsOpt wc wspd_clean wdir_clean
        if p_clean.length = 0 then .error .emptyAfterFilter
        else
          .ok (sortProfile p_clean T_clean Td_clean uv.1 uv.2 wind_units,
               "UWYO-" ++ src)
      | _, _, _, _, _ => .error (.unexpectedFormat df.columnNames)

/-- The `for src in sources` loop with its `last_exception` accumulator
    (sondeo.py lines 140-249). -/
def uwyoLoop (wc : ℚ → ℚ → ℚ × ℚ) (fetch : String → Except String UwyoDF) :
    List String → Option UwyoErr → Except UwyoErr (Profile × String)
  | [], last => .error (.allFailed last)
  | src :: rest, _ =>
    match uwyoTryOne wc (fetch src) src with
    | .ok r => .ok r
    | .error e => uwyoLoop wc fetch rest (some e)

/-- `lecturaSondeoUWyo` (sondeo.py lines 134-249): try the FM35 source
    variant, then BUFR, returning the first success (a profile tagged
    "UWYO-" plus the variant) or the final all-failed error.  `fetch`
    abstracts the per-variant HTTP request plus `pd.read_csv`. -/
def lecturaSondeoUWyo (wc : ℚ → ℚ → ℚ × ℚ)
    (fetch : String → Except String UwyoDF) :
    Except UwyoErr (Profile × String) :=
  uwyoLoop wc fetch ["FM35", "BUFR"] none

/-- A Python exception value as seen by the source managers: the
    `ValueError`s they raise themselves, a web-reader error, or any
    other exception (the `except Exception` clauses catch all of them). -/
inductive PyErr where
  | valueError (msg : String)
  | uwyo (e : UwyoErr)
  | other (msg : String)

/-- The first element of the pair returned by a source manager: either a
    plain `(p, T, Td, u, v)` profile or, for sounding_sources.py's web
    path, the raw six-element tuple of `lecturaSondeoUWyo` (profile plus
    its precise-source string). -/
def PData := Profile ⊕ (Profile × String)

instance : DecidableEq PData := inferInstanceAs (DecidableEq (Profile ⊕ (Profile × String)))

/-- `get_sounding` of sondeo.py (lines 254-280).  The two readers are
    passed in as functions of the station code and the four date-part
    strings; the embedding applies them exactly where the source calls
    them (the web reader at the last-5-character WMO sub-code). -/
def get_sounding
    (igraF : String → String → String → String → String → Except PyErr Profile)
    (uwyoF : String → String → String → String → String →
      Except PyErr (Profile × String))
    (CodEst yr mn dy hr source_mode : String) :
    Except PyErr (PData × String) :=
  let sm := pyUpper source_mode
  if sm ≠ "IGRA" ∧ sm ≠ "UWYO" ∧ sm ≠ "AUTO" then
    .error (.valueError "source_mode debe ser IGRA, UWYO o AUTO")
  else if sm = "IGRA" then
    (igraF CodEst yr mn dy hr).map (fun pr => (.inl pr, "IGRA"))
  else if sm = "UWYO" then
    (uwyoF (pyLastN 5 CodEst) yr mn dy hr).map (fun dt => (.inl dt.1, dt.2))
  else
    match igraF CodEst yr mn dy hr with
    | .ok pr => .ok (.inl pr, "IGRA")
    | .error _ =>
      (uwyoF (pyLastN 5 CodEst) yr mn dy hr).map (fun dt => (.inl dt.1, dt.2))

/-- `get_sounding` of sounding_sources.py (lines 3-30).  Unlike the
    sondeo.py version it does not unpack the web reader's six-element
    tuple: the web path returns the whole tuple as the data part and the
    literal tag "UWYO". -/
def sources_get_sounding
    (igraF : String → String → String → String → String → Except PyErr Profile)
    (uwyoF : String → String → String → String → String →
      Except PyErr (Profile × String))
    (CodEst yr mn dy hr source_mode : String) :
    Except PyErr (PData × String) :=
  let sm := pyUpper source_mode
  if sm ≠ "IGRA" ∧ sm ≠ "UWYO" ∧ sm ≠ "AUTO" then
    .error (.valueError "source_mode debe ser IGRA, UWYO o AUTO")
  else if sm = "IGRA" then
    (igraF CodEst yr mn dy hr).map (fun pr => (.inl pr, "IGRA"))
  else if sm = "UWYO" then
    (uwyoF (pyLastN 5 CodEst) yr mn dy hr).map (fun dt => (.inr dt, "UWYO"))
  else
    match igraF CodEst yr mn dy hr with
    | .ok pr => .ok (.inl pr, "IGRA")
    | .error _ =>
      (uwyoF (pyLastN 5 CodEst) yr mn dy hr).map (fun dt => (.inr dt, "UWYO"))

/-- Hour parsed by `datetime.strptime(hora_str, '%H:%M').hour` at
    app.py line 89: the digits before the colon. -/
def strptimeHour (s : String) : Int :=
  (pyInt? (String.mk (s.toList.takeWhile (fun c => c ≠ ':')))).getD 0

/-- Python format `f"{h:02}"`: zero-pad to two characters. -/
def format02 (n : Int) : String :=
  if 0 ≤ n ∧ n < 10 then "0" ++ toString n else toString n

/-- Candidate hour list of app.py lines 84-89: the fixed priority order
    for "AUTO", else the single selected hour reformatted as two digits. -/
def hoursToTry (hora_str : String) : List String :=
  if hora_str == "AUTO" then ["00", "12", "06", "18", "03", "09", "15", "21"]
  else [format02 (strptimeHour hora_str)]

/-- The `for test_hr in hours_to_try` loop of app.py lines 105-112 with
    its `last_error` accumulator: first success returns the result and
    the hour that produced it (`found_hr`). -/
def tryHours (gs : String → Except PyErr α) :
    List String → Option PyErr → Except (Option PyErr) (α × String)
  | [], last => .error last
  | h :: t, _ =>
    match gs h with
    | .ok r => .ok (r, h)
    | .error e => tryHours gs t (some e)

/-- The retry loop of app.py lines 100-115: iterate the candidate hours,
    stop at the first success, and when every hour fails raise the
    `ValueError` of line 115, which carries the full candidate list and
    the last underlying error. -/
def retryLoop (gs : String → Except PyErr α) (hours : List String) :
    Except (List String × Option PyErr) (α × String) :=
  match tryHours gs hours none with
  | .ok r => .ok r
  | .error last => .error (hours, last)

/-- A concrete stand-in for `mpcalc.wind_components` used to instantiate
    the reader parameters on concrete runs. -/
def wcDemo : ℚ → ℚ → ℚ × ℚ := fun s d => (s + d, s - d)

/-- A small concrete IGRA archive member: one matching header declaring
    11 data lines, followed by 11 well-formed data lines. -/
def igraDemoLines : List String :=
  [ "#ESM00008221 2026 01 14 00 2314   11",
    "21 -9999 101325         -50          20   180   100",
    "21 -9999 100325         -60          20   180   100",
    "21 -9999  99325         -70          20   180   100",
    "21 -9999  98325         -80          20   180   100",
    "21 -9999  97325         -90          20   180   100",
    "21 -9999  96325        -100          20   180   100",
    "21 -9999  95325        -110          20   180   100",
    "21 -9999  94325        -120          20   180   100",
    "21 -9999  93325        -130          20   180   100",
    "21 -9999  92325        -140          20   180   100",
    "21 -9999  91325        -150          20   180   100" ]

/-- The profile the archive reader produces on `igraDemoLines`. -/
def igraDemoProf : Profile :=
  (lecturaSondeoIGRA wcDemo (mkTarget "2026" "01" "14" "00")
    igraDemoLines).toOption.getD default

/-- A concrete web-table row for the UWyo demos. -/
def uwyoDemoRow (pv Tv : Option ℚ) : String → Option ℚ := fun c =>
  if c == "pressure" then pv
  else if c == "temperature" then Tv
  else if c == "dwpt" then some 5
  else if c == "direction" then some 180
  else if c == "speed" then some 15
  else none

/-- A concrete web table with two rows, of which only the first passes
    the pressure/temperature mask. -/
def uwyoDemoDF : UwyoDF :=
  ⟨["pressure", "temperature", "dwpt", "direction", "speed"],
   [uwyoDemoRow (some 1000) (some 20), uwyoDemoRow (some 900) none]⟩

/-- A fetch in which the FM35 variant succeeds with `uwyoDemoDF`. -/
def uwyoDemoFetch : String → Except String UwyoDF := fun src =>
  if src == "FM35" then .ok uwyoDemoDF else .error "timeout"

/-- The profile the web reader produces on `uwyoDemoFetch`. -/
def uwyoDemoProf : Profile :=
  ((lecturaSondeoUWyo wcDemo uwyoDemoFetch).toOption.getD
    (default, "")).1

/-- A parse of an HTML error page: `pd.read_csv` yields a one-column,
    one-row frame whose column is the first HTML line; no column name
    contains "pressure". -/
def htmlDemoDF : UwyoDF :=
  ⟨["<html><body>Error"], [fun _ => none]⟩

/-- A fetch in which both variants return the HTML error page. -/
def htmlDemoFetch : String → Except String UwyoDF := fun _ => .ok htmlDemoDF

/-- A header for the block-consumption demo: matching timestamp, count 2. -/
def c3DemoHeader : String := "#ESM00008221 2026 01 14 00 2314    2"

/-- Three data lines following the count-2 header; the second is
    malformed (fails integer parsing). -/
def c3DemoData : List String :=
  [ "21 -9999 101325         -50          20   180   100",
    "21 -9999 10X325         -5Y          20   180   100",
    "21 -9999  99325         -70          20   180   100" ]

/-- A collecting state for the single-line decode demo. -/
def c6DemoState : IgraState :=
  { igraInit with reading := true, n_expected := 1 }

/-- An archive reader stand-in that always raises. -/
def igraFDemo : String → String → String → String → String →
    Except PyErr Profile :=
  fun _ _ _ _ _ => .error (.other "connection refused")

/-- A web reader stand-in built from the embedded `lecturaSondeoUWyo`
    on the demo fetch (succeeds with variant FM35). -/
def uwyoFDemo : String → String → String → String → String →
    Except PyErr (Profile × String) :=
  fun _ _ _ _ _ =>
    match lecturaSondeoUWyo wcDemo uwyoDemoFetch with
    | .ok r => .ok r
    | .error e => .error (.uwyo e)

/-- A per-hour retrieval stand-in that succeeds only at hour "06". -/
def gsDemo : String → Except PyErr (Profile × String) := fun h =>
  if h == "06" then .ok (default, "IGRA") else .error (.other ("no data " ++ h))

/-- A per-hour retrieval stand-in that always fails. -/
def gsFailDemo : String → Except PyErr (Profile × String) := fun h =>
  .error (.other ("no data " ++ h))

/-- The embedding writes the source's exact divisions `x / 100.0` and
    `x / 10.0` as `mkRat` so that they compute; this lemma records that
    the two are the same rational. -/
theorem mkRat_eq_divq (a : Int) (b : Nat) : mkRat a b = (a : ℚ) / (b : ℚ) := by
  rw [Rat.mkRat_eq_div]

theorem sortProfile_p_def (ps Ts : List ℚ) (Tds us vs : List (Option ℚ))
    (wu : WindUnit) :
    (sortProfile ps Ts Tds us vs wu).p = applyIdx 0 ps (argsortDesc ps) := rfl

/-- The pressure array produced by `sortProfile` is non-increasing. -/
theorem sortProfile_p_sorted (ps Ts : List ℚ) (Tds us vs : List (Option ℚ))
    (wu : WindUnit) :
    List.Sorted (fun a b => a ≥ b) (sortProfile ps Ts Tds us vs wu).p := by
  have hs : List.Sorted (fun i j => ps.getD j 0 ≤ ps.getD i 0) (argsortDesc ps) := by
    haveI : IsTotal Nat (fun i j => ps.getD j 0 ≤ ps.getD i 0) :=
      ⟨fun a b => le_total (ps.getD b 0) (ps.getD a 0)⟩
    haveI : IsTrans Nat (fun i j => ps.getD j 0 ≤ ps.getD i 0) :=
      ⟨fun _ _ _ h1 h2 => le_trans h2 h1⟩
    exact List.sorted_insertionSort _ _
  rw [sortProfile_p_def]
  unfold applyIdx
  rw [List.Sorted, List.pairwise_map]
  exact hs

/-- The five arrays of a `sortProfile` result are coordinatewise
    projections of one list of level tuples (index alignment), and hence
    all have the same length. -/
theorem sortProfile_align (ps Ts : List ℚ) (Tds us vs : List (Option ℚ))
    (wu : WindUnit) :
    ∃ L : List (ℚ × ℚ × Option ℚ × Option ℚ × Option ℚ),
      (sortProfile ps Ts Tds us vs wu).p = L.map (fun lv => lv.1) ∧
      (sortProfile ps Ts Tds us vs wu).T = L.map (fun lv => lv.2.1) ∧
      (sortProfile ps Ts Tds us vs wu).Td = L.map (fun lv => lv.2.2.1) ∧
      (sortProfile ps Ts Tds us vs wu).u = L.map (fun lv => lv.2.2.2.1) ∧
      (sortProfile ps Ts Tds us vs wu).v = L.map (fun lv => lv.2.2.2.2) := by
  refine ⟨(argsortDesc ps).map
    (fun i => (ps.getD i 0, Ts.getD i 0, Tds.getD i none, us.getD i none,
               vs.getD i none)), ?_, ?_, ?_, ?_, ?_⟩ <;>
    simp [sortProfile, applyIdx, List.map_map, Function.comp]

theorem sortProfile_lengths (ps Ts : List ℚ) (Tds us vs : List (Option ℚ))
    (wu : WindUnit) :
    (sortProfile ps Ts Tds us vs wu).T.length = (sortProfile ps Ts Tds us vs wu).p.length ∧
    (sortProfile ps Ts Tds us vs wu).Td.length = (sortProfile ps Ts Tds us vs wu).p.length ∧
    (sortProfile ps Ts Tds us vs wu).u.length = (sortProfile ps Ts Tds us vs wu).p.length ∧
    (sortProfile ps Ts Tds us vs wu).v.length = (sortProfile ps Ts Tds us vs wu).p.length := by
  simp [sortProfile, applyIdx]

theorem sortProfile_p_length (ps Ts : List ℚ) (Tds us vs : List (Option ℚ))
    (wu : WindUnit) :
    (sortProfile ps Ts Tds us vs wu).p.length = ps.length := by
  simp [sortProfile, applyIdx, argsortDesc]

/-- Success inversion for the embedded `lecturaSondeoIGRA`: a returned
    profile is the sorted form of a scan state with at least 10
    collected levels. -/
theorem lecturaSondeoIGRA_ok_inv {wc : ℚ → ℚ → ℚ × ℚ} {target : String}
    {lines : List String} {pr : Profile}
    (h : lecturaSondeoIGRA wc target lines = .ok pr) :
    ∃ s, igraScanFrom target igraInit lines = .ok s ∧ 10 ≤ s.ps.length ∧
      pr = sortProfile s.ps s.Ts s.Tds
             (windComponentsOpt wc s.wspds s.wdirs).1
             (windComponentsOpt wc s.wspds s.wdirs).2 .mps := by
  unfold lecturaSondeoIGRA at h
  match hscan : igraScanFrom target igraInit lines with
  | .error e => rw [hscan] at h; exact absurd h (by simp)
  | .ok s =>
    rw [hscan] at h
    dsimp only at h
    unfold igraFinish at h
    by_cases hlen : s.ps.length < 10
    · rw [if_pos hlen] at h; exact absurd h (by simp)
    · rw [if_neg hlen] at h
      refine ⟨s, rfl, by omega, ?_⟩
      exact (Except.ok.inj h).symm

/-- Success inversion for one source-variant attempt of the web reader:
    a success means the fetch parsed, the pressure guard passed, all five
    logical columns resolved, at least one row survived the mask, and
    the result is the sorted, masked table with the wind unit inferred
    from the matched wind-speed alias. -/
theorem uwyoTryOne_ok_inv {wc : ℚ → ℚ → ℚ × ℚ} {fr : Except String UwyoDF}
    {src : String} {pr : Profile} {tag : String}
    (h : uwyoTryOne wc fr src = .ok (pr, tag)) :
    ∃ df pc Tc Tdc dc sc,
      fr = .ok df ∧
      uwyoGuardFails df = false ∧
      get_col df ["pressure", "pressure_hPa", "pres"] = some pc ∧
      get_col df ["temperature", "temperature_C", "temp"] = some Tc ∧
      get_col df ["dew point", "dew point temperature_C", "dwpt"] = some Tdc ∧
      get_col df ["direction", "wind direction_degree", "drct"] = some dc ∧
      get_col df wspdCandidates = some sc ∧
      cleanVals (uwyoKeep df pc.1 Tc.1) pc.1 ≠ [] ∧
      tag = "UWYO-" ++ src ∧
      pr = sortProfile (cleanVals (uwyoKeep df pc.1 Tc.1) pc.1)
             (cleanVals (uwyoKeep df pc.1 Tc.1) Tc.1)
             (cleanOpts (uwyoKeep df pc.1 Tc.1) Tdc.1)
             (windComponentsOpt wc (cleanOpts (uwyoKeep df pc.1 Tc.1) sc.1)
               (cleanOpts (uwyoKeep df pc.1 Tc.1) dc.1)).1
             (windComponentsOpt wc (cleanOpts (uwyoKeep df pc.1 Tc.1) sc.1)
               (cleanOpts (uwyoKeep df pc.1 Tc.1) dc.1)).2
             (windUnitOf sc.2) := by
  match hfr : fr with
  | .error m => exact absurd h (by simp [uwyoTryOne])
  | .ok df =>
    unfold uwyoTryOne at h
    dsimp only at h
    by_cases hg : uwyoGuardFails df
    · rw [if_pos hg] at h; exact absurd h (by simp)
    · rw [if_neg hg] at h
      refine ⟨df, ?_⟩
      split at h
      case _ pc Tc Tdc dc sc hpc hTc hTdc hdc hsc =>
        refine ⟨pc, Tc, Tdc, dc, sc, rfl, by simpa using hg, hpc, hTc, hTdc, hdc, hsc, ?_⟩
        by_cases hlen : (cleanVals (uwyoKeep df pc.1 Tc.1) pc.1).length = 0
        · rw [if_pos hlen] at h; exact absurd h (by simp)
        · rw [if_neg hlen] at h
          have hinj := Except.ok.inj h
          refine ⟨fun hnil => hlen (by rw [hnil]; rfl), ?_, ?_⟩
          · exact (congrArg Prod.snd hinj).symm
          · exact (congrArg Prod.fst hinj).symm
      case _ =>
        exact absurd h (by simp)

/-- A web-reader success came from one of the two source variants. -/
theorem lecturaSondeoUWyo_ok_inv {wc : ℚ → ℚ → ℚ × ℚ}
    {fetch : String → Except String UwyoDF} {pr : Profile} {tag : String}
    (h : lecturaSondeoUWyo wc fetch = .ok (pr, tag)) :
    uwyoTryOne wc (fetch "FM35") "FM35" = .ok (pr, tag) ∨
    uwyoTryOne wc (fetch "BUFR") "BUFR" = .ok (pr, tag) := by
  unfold lecturaSondeoUWyo uwyoLoop at h
  cases h1 : uwyoTryOne wc (fetch "FM35") "FM35" with
  | ok r =>
    rw [h1] at h
    dsimp only at h
    left
    exact h
  | error e =>
    rw [h1] at h
    dsimp only at h
    unfold uwyoLoop at h
    cases h2 : uwyoTryOne wc (fetch "BUFR") "BUFR" with
    | ok r =>
      rw [h2] at h
      dsimp only at h
      right
      exact h
    | error e2 =>
      rw [h2] at h
      dsimp only at h
      unfold uwyoLoop at h
      exact absurd h (by simp)

/-- C7: for every profile returned by either reader, the pressure array
    is non-increasing by index (descending-pressure sort applied after
    extraction and filtering). -/
theorem C7_pressure_descending :
    (∀ (wc : ℚ → ℚ → ℚ × ℚ) (target : String) (lines : List String)
       (pr : Profile),
      lecturaSondeoIGRA wc target lines = .ok pr →
      List.Sorted (fun a b => a ≥ b) pr.p)
    ∧ (∀ (wc : ℚ → ℚ → ℚ × ℚ) (fetch : String → Except String UwyoDF)
         (pr : Profile) (tag : String),
      lecturaSondeoUWyo wc fetch = .ok (pr, tag) →
      List.Sorted (fun a b => a ≥ b) pr.p) := by
  constructor
  · intro wc target lines pr h
    obtain ⟨s, -, -, hpr⟩ := lecturaSondeoIGRA_ok_inv h
    rw [hpr]
    exact sortProfile_p_sorted _ _ _ _ _ _
  · intro wc fetch pr tag h
    rcases lecturaSondeoUWyo_ok_inv h with h1 | h1 <;>
    · obtain ⟨df, pc, Tc, Tdc, dc, sc, -, -, -, -, -, -, -, -, -, hpr⟩ :=
        uwyoTryOne_ok_inv h1
      rw [hpr]
      exact sortProfile_p_sorted _ _ _ _ _ _

/-- Witness for C7 on concrete runs of both readers. -/
theorem C7_pressure_descending_witness :
    List.Sorted (fun a b => a ≥ b) igraDemoProf.p ∧
    List.Sorted (fun a b => a ≥ b) uwyoDemoProf.p :=
  ⟨C7_pressure_descending.1 wcDemo (mkTarget "2026" "01" "14" "00")
      igraDemoLines igraDemoProf rfl,
   C7_pressure_descending.2 wcDemo uwyoDemoFetch uwyoDemoProf "UWYO-FM35" rfl⟩

/-- C8: for every profile returned by either reader, the five arrays have
    equal length and the entries at each index are projections of one
    shared list of level tuples (same source level at every index). -/
theorem C8_five_array_alignment :
    (∀ (wc : ℚ → ℚ → ℚ × ℚ) (target : String) (lines : List String)
       (pr : Profile),
      lecturaSondeoIGRA wc target lines = .ok pr →
      (pr.T.length = pr.p.length ∧ pr.Td.length = pr.p.length ∧
       pr.u.length = pr.p.length ∧ pr.v.length = pr.p.length) ∧
      ∃ L : List (ℚ × ℚ × Option ℚ × Option ℚ × Option ℚ),
        pr.p = L.map (fun lv => lv.1) ∧ pr.T = L.map (fun lv => lv.2.1) ∧
        pr.Td = L.map (fun lv => lv.2.2.1) ∧
        pr.u = L.map (fun lv => lv.2.2.2.1) ∧
        pr.v = L.map (fun lv => lv.2.2.2.2))
    ∧ (∀ (wc : ℚ → ℚ → ℚ × ℚ) (fetch : String → Except String UwyoDF)
         (pr : Profile) (tag : String),
      lecturaSondeoUWyo wc fetch = .ok (pr, tag) →
      (pr.T.length = pr.p.length ∧ pr.Td.length = pr.p.length ∧
       pr.u.length = pr.p.length ∧ pr.v.length = pr.p.length) ∧
      ∃ L : List (ℚ × ℚ × Option ℚ × Option ℚ × Option ℚ),
        pr.p = L.map (fun lv => lv.1) ∧ pr.T = L.map (fun lv => lv.2.1) ∧
        pr.Td = L.map (fun lv => lv.2.2.1) ∧
        pr.u = L.map (fun lv => lv.2.2.2.1) ∧
        pr.v = L.map (fun lv => lv.2.2.2.2)) := by
  constructor
  · intro wc target lines pr h
    obtain ⟨s, -, -, hpr⟩ := lecturaSondeoIGRA_ok_inv h
    rw [hpr]
    exact ⟨sortProfile_lengths _ _ _ _ _ _, sortProfile_align _ _ _ _ _ _⟩
  · intro wc fetch pr tag h
    rcases lecturaSondeoUWyo_ok_inv h with h1 | h1 <;>
    · obtain ⟨df, pc, Tc, Tdc, dc, sc, -, -, -, -, -, -, -, -, -, hpr⟩ :=
        uwyoTryOne_ok_inv h1
      rw [hpr]
      exact ⟨sortProfile_lengths _ _ _ _ _ _, sortProfile_align _ _ _ _ _ _⟩

/-- Witness for C8 on concrete runs of both readers. -/
theorem C8_five_array_alignment_witness :
    ((igraDemoProf.T.length = igraDemoProf.p.length ∧
      igraDemoProf.Td.length = igraDemoProf.p.length ∧
      igraDemoProf.u.length = igraDemoProf.p.length ∧
      igraDemoProf.v.length = igraDemoProf.p.length) ∧
     ∃ L : List (ℚ × ℚ × Option ℚ × Option ℚ × Option ℚ),
       igraDemoProf.p = L.map (fun lv => lv.1) ∧
       igraDemoProf.T = L.map (fun lv => lv.2.1) ∧
       igraDemoProf.Td = L.map (fun lv => lv.2.2.1) ∧
       igraDemoProf.u = L.map (fun lv => lv.2.2.2.1) ∧
       igraDemoProf.v = L.map (fun lv => lv.2.2.2.2)) ∧
    ((uwyoDemoProf.T.length = uwyoDemoProf.p.length ∧
      uwyoDemoProf.Td.length = uwyoDemoProf.p.length ∧
      uwyoDemoProf.u.length = uwyoDemoProf.p.length ∧
      uwyoDemoProf.v.length = uwyoDemoProf.p.length) ∧
     ∃ L : List (ℚ × ℚ × Option ℚ × Option ℚ × Option ℚ),
       uwyoDemoProf.p = L.map (fun lv => lv.1) ∧
       uwyoDemoProf.T = L.map (fun lv => lv.2.1) ∧
       uwyoDemoProf.Td = L.map (fun lv => lv.2.2.1) ∧
       uwyoDemoProf.u = L.map (fun lv => lv.2.2.2.1) ∧
       uwyoDemoProf.v = L.map (fun lv => lv.2.2.2.2)) :=
  ⟨C8_five_array_alignment.1 wcDemo (mkTarget "2026" "01" "14" "00")
     igraDemoLines igraDemoProf rfl,
   C8_five_array_alignment.2 wcDemo uwyoDemoFetch uwyoDemoProf "UWYO-FM35" rfl⟩

/-- C1 (amended): the archive reader never returns a profile with fewer
    than 10 levels, while the web reader only guarantees at least one
    level after filtering (its guard is a zero-length check, not a
    10-level check). -/
theorem C1_amended_min_levels :
    (∀ (wc : ℚ → ℚ → ℚ × ℚ) (target : String) (lines : List String)
       (pr : Profile),
      lecturaSondeoIGRA wc target lines = .ok pr → 10 ≤ pr.p.length)
    ∧ (∀ (wc : ℚ → ℚ → ℚ × ℚ) (fetch : String → Except String UwyoDF)
         (pr : Profile) (tag : String),
      lecturaSondeoUWyo wc fetch = .ok (pr, tag) → 1 ≤ pr.p.length) := by
  constructor
  · intro wc target lines pr h
    obtain ⟨s, -, hlen, hpr⟩ := lecturaSondeoIGRA_ok_inv h
    rw [hpr, sortProfile_p_length]
    exact hlen
  · intro wc fetch pr tag h
    rcases lecturaSondeoUWyo_ok_inv h with h1 | h1 <;>
    · obtain ⟨df, pc, Tc, Tdc, dc, sc, -, -, -, -, -, -, -, hne, -, hpr⟩ :=
        uwyoTryOne_ok_inv h1
      rw [hpr, sortProfile_p_length]
      exact Nat.one_le_iff_ne_zero.mpr (fun h0 => hne (List.eq_nil_of_length_eq_zero h0))

/-- Counterexample to C1 as stated: the web reader returns (rather than
    raises on) a profile with a single valid level, which is fewer
    than 10. -/
theorem C1_counterexample_single_level :
    lecturaSondeoUWyo wcDemo uwyoDemoFetch = .ok (uwyoDemoProf, "UWYO-FM35") ∧
    uwyoDemoProf.p.length = 1 :=
  ⟨rfl, rfl⟩

/-- Witness for the amended C1 on concrete runs of both readers. -/
theorem C1_amended_min_levels_witness :
    10 ≤ igraDemoProf.p.length ∧ 1 ≤ uwyoDemoProf.p.length :=
  ⟨C1_amended_min_levels.1 wcDemo (mkTarget "2026" "01" "14" "00")
     igraDemoLines igraDemoProf rfl,
   C1_amended_min_levels.2 wcDemo uwyoDemoFetch uwyoDemoProf "UWYO-FM35" rfl⟩

/-- C9: the wind-speed unit is decided by the matched alias name — a name
    containing "m/s" gives meters per second, otherwise a name containing
    "kn" or "sknt" gives knots, and anything else defaults to knots — and
    every web-reader success carries that inferred unit on a profile
    whose u/v arrays were computed from the masked speed and direction
    columns of the matched aliases. -/
theorem C9_wind_unit_inference :
    (∀ name : String,
      (strContains name "m/s" = true → windUnitOf name = .mps) ∧
      (strContains name "m/s" = false →
        (strContains name "kn" = true ∨ strContains name "sknt" = true) →
        windUnitOf name = .knots) ∧
      (strContains name "m/s" = false → strContains name "kn" = false →
        strContains name "sknt" = false → windUnitOf name = .knots))
    ∧ (∀ (wc : ℚ → ℚ → ℚ × ℚ) (fetch : String → Except String UwyoDF)
         (pr : Profile) (tag : String),
      lecturaSondeoUWyo wc fetch = .ok (pr, tag) →
      ∃ (src : String) (df : UwyoDF)
        (pc Tc Tdc dc sc : List (Option ℚ) × String),
        fetch src = .ok df ∧
        get_col df wspdCandidates = some sc ∧
        get_col df ["direction", "wind direction_degree", "drct"] = some dc ∧
        pr.uvUnit = windUnitOf sc.2 ∧
        pr = sortProfile (cleanVals (uwyoKeep df pc.1 Tc.1) pc.1)
               (cleanVals (uwyoKeep df pc.1 Tc.1) Tc.1)
               (cleanOpts (uwyoKeep df pc.1 Tc.1) Tdc.1)
               (windComponentsOpt wc (cleanOpts (uwyoKeep df pc.1 Tc.1) sc.1)
                 (cleanOpts (uwyoKeep df pc.1 Tc.1) dc.1)).1
               (windComponentsOpt wc (cleanOpts (uwyoKeep df pc.1 Tc.1) sc.1)
                 (cleanOpts (uwyoKeep df pc.1 Tc.1) dc.1)).2
               (windUnitOf sc.2)) := by
  constructor
  · intro name
    refine ⟨?_, ?_, ?_⟩
    · intro hms
      simp [windUnitOf, hms]
    · intro hms hkn
      rcases hkn with hkn | hkn <;> simp [windUnitOf, hms, hkn]
    · intro hms hkn hsk
      simp [windUnitOf, hms, hkn, hsk]
  · intro wc fetch pr tag h
    rcases lecturaSondeoUWyo_ok_inv h with h1 | h1
    · obtain ⟨df, pc, Tc, Tdc, dc, sc, hfr, -, -, -, -, hdc, hsc, -, -, hpr⟩ :=
        uwyoTryOne_ok_inv h1
      exact ⟨"FM35", df, pc, Tc, Tdc, dc, sc, hfr, hsc, hdc,
             by rw [hpr]; rfl, hpr⟩
    · obtain ⟨df, pc, Tc, Tdc, dc, sc, hfr, -, -, -, -, hdc, hsc, -, -, hpr⟩ :=
        uwyoTryOne_ok_inv h1
      exact ⟨"BUFR", df, pc, Tc, Tdc, dc, sc, hfr, hsc, hdc,
             by rw [hpr]; rfl, hpr⟩

/-- Witness for C9: the explicit-metric alias maps to m/s, and the demo
    web-reader run exhibits the inferred unit on its profile. -/
theorem C9_wind_unit_inference_witness :
    windUnitOf "wind speed_m/s" = .mps ∧
    ∃ (src : String) (df : UwyoDF)
      (pc Tc Tdc dc sc : List (Option ℚ) × String),
      uwyoDemoFetch src = .ok df ∧
      get_col df wspdCandidates = some sc ∧
      get_col df ["direction", "wind direction_degree", "drct"] = some dc ∧
      uwyoDemoProf.uvUnit = windUnitOf sc.2 ∧
      uwyoDemoProf = sortProfile (cleanVals (uwyoKeep df pc.1 Tc.1) pc.1)
             (cleanVals (uwyoKeep df pc.1 Tc.1) Tc.1)
             (cleanOpts (uwyoKeep df pc.1 Tc.1) Tdc.1)
             (windComponentsOpt wcDemo (cleanOpts (uwyoKeep df pc.1 Tc.1) sc.1)
               (cleanOpts (uwyoKeep df pc.1 Tc.1) dc.1)).1
             (windComponentsOpt wcDemo (cleanOpts (uwyoKeep df pc.1 Tc.1) sc.1)
               (cleanOpts (uwyoKeep df pc.1 Tc.1) dc.1)).2
             (windUnitOf sc.2) :=
  ⟨(C9_wind_unit_inference.1 "wind speed_m/s").1 rfl,
   C9_wind_unit_inference.2 wcDemo uwyoDemoFetch uwyoDemoProf "UWYO-FM35" rfl⟩

/-- C2: in AUTO mode, when the archive reader raises any error, the
    source manager calls the web reader on the last five characters of
    the station code and, on web success, returns that profile with the
    web reader's own provenance tag; the archive error does not appear. -/
theorem C2_auto_fallback
    (igraF : String → String → String → String → String → Except PyErr Profile)
    (uwyoF : String → String → String → String → String →
      Except PyErr (Profile × String))
    (CodEst yr mn dy hr : String) (e : PyErr)
    (hig : igraF CodEst yr mn dy hr = .error e) :
    get_sounding igraF uwyoF CodEst yr mn dy hr "AUTO" =
      (uwyoF (pyLastN 5 CodEst) yr mn dy hr).map
        (fun dt => (Sum.inl dt.1, dt.2))
    ∧ ∀ (pr : Profile) (tag : String),
      uwyoF (pyLastN 5 CodEst) yr mn dy hr = .ok (pr, tag) →
      get_sounding igraF uwyoF CodEst yr mn dy hr "AUTO" =
        .ok (Sum.inl pr, tag) := by
  have hbase : get_sounding igraF uwyoF CodEst yr mn dy hr "AUTO" =
      (uwyoF (pyLastN 5 CodEst) yr mn dy hr).map
        (fun dt => (Sum.inl dt.1, dt.2)) := by
    unfold get_sounding
    rw [if_neg (by decide), if_neg (by decide), if_neg (by decide), hig]
  refine ⟨hbase, fun pr tag huw => ?_⟩
  rw [hbase, huw]
  rfl

/-- Witness for C2: a failing archive stand-in falls back to the demo
    web reader; the result is its profile with the FM35 variant tag. -/
theorem C2_auto_fallback_witness :
    get_sounding igraFDemo uwyoFDemo "USM00008221" "2026" "01" "14" "00" "AUTO" =
      (uwyoFDemo (pyLastN 5 "USM00008221") "2026" "01" "14" "00").map
        (fun dt => (Sum.inl dt.1, dt.2))
    ∧ ∀ (pr : Profile) (tag : String),
      uwyoFDemo (pyLastN 5 "USM00008221") "2026" "01" "14" "00" = .ok (pr, tag) →
      get_sounding igraFDemo uwyoFDemo "USM00008221" "2026" "01" "14" "00" "AUTO" =
        .ok (Sum.inl pr, tag) :=
  C2_auto_fallback igraFDemo uwyoFDemo "USM00008221" "2026" "01" "14" "00"
    (.other "connection refused") rfl

/-- C10 (amended): the two `get_sounding` implementations agree on every
    input whose result does not come from the web reader (invalid modes,
    IGRA mode, AUTO with archive success, and all error outcomes), but
    whenever the web reader's result is returned (UWYO mode, or AUTO
    after an archive failure), sondeo.py yields the five-array profile
    with the reader's precise variant tag while sounding_sources.py
    yields the reader's raw six-element tuple with the constant tag
    "UWYO". -/
theorem C10_amended_get_sounding_equiv
    (igraF : String → String → String → String → String → Except PyErr Profile)
    (uwyoF : String → String → String → String → String →
      Except PyErr (Profile × String))
    (CodEst yr mn dy hr mode : String) :
    (pyUpper mode ≠ "UWYO" ∧ pyUpper mode ≠ "AUTO" →
      sources_get_sounding igraF uwyoF CodEst yr mn dy hr mode =
        get_sounding igraF uwyoF CodEst yr mn dy hr mode)
    ∧ (∀ pr : Profile, pyUpper mode = "AUTO" →
        igraF CodEst yr mn dy hr = .ok pr →
        sources_get_sounding igraF uwyoF CodEst yr mn dy hr mode =
          get_sounding igraF uwyoF CodEst yr mn dy hr mode)
    ∧ (∀ e : PyErr,
        (pyUpper mode = "UWYO" ∨
          (pyUpper mode = "AUTO" ∧ ∃ e2, igraF CodEst yr mn dy hr = .error e2)) →
        uwyoF (pyLastN 5 CodEst) yr mn dy hr = .error e →
        sources_get_sounding igraF uwyoF CodEst yr mn dy hr mode = .error e ∧
        get_sounding igraF uwyoF CodEst yr mn dy hr mode = .error e)
    ∧ (∀ (pr : Profile) (tg : String),
        (pyUpper mode = "UWYO" ∨
          (pyUpper mode = "AUTO" ∧ ∃ e2, igraF CodEst yr mn dy hr = .error e2)) →
        uwyoF (pyLastN 5 CodEst) yr mn dy hr = .ok (pr, tg) →
        get_sounding igraF uwyoF CodEst yr mn dy hr mode = .ok (Sum.inl pr, tg) ∧
        sources_get_sounding igraF uwyoF CodEst yr mn dy hr mode =
          .ok (Sum.inr (pr, tg), "UWYO")) := by
  refine ⟨?_, ?_, ?_, ?_⟩
  · rintro ⟨hnu, hna⟩
    by_cases hig : pyUpper mode = "IGRA"
    · unfold sources_get_sounding get_sounding
      rw [hig]
      rw [if_neg (by decide), if_pos (by decide)]
      rfl
    · unfold sources_get_sounding get_sounding
      rw [if_pos ⟨hig, hnu, hna⟩, if_pos ⟨hig, hnu, hna⟩]
  · intro pr hauto higok
    unfold sources_get_sounding get_sounding
    rw [hauto]
    rw [if_neg (by decide), if_neg (by decide), if_neg (by decide), higok]
    rfl
  · rintro e (hu | ⟨ha, e2, hig⟩) huw
    · unfold sources_get_sounding get_sounding
      rw [hu, if_neg (by decide), if_neg (by decide), if_pos (by decide),
          if_neg (by decide), if_neg (by decide), if_pos (by decide), huw]
      exact ⟨rfl, rfl⟩
    · unfold sources_get_sounding get_sounding
      rw [ha, if_neg (by decide), if_neg (by decide), if_neg (by decide),
          if_neg (by decide), if_neg (by decide), if_neg (by decide), hig, huw]
      exact ⟨rfl, rfl⟩
  · rintro pr tg (hu | ⟨ha, e2, hig⟩) huw
    · unfold sources_get_sounding get_sounding
      rw [hu, if_neg (by decide), if_neg (by decide), if_pos (by decide),
          if_neg (by decide), if_neg (by decide), if_pos (by decide), huw]
      exact ⟨rfl, rfl⟩
    · unfold sources_get_sounding get_sounding
      rw [ha, if_neg (by decide), if_neg (by decide), if_neg (by decide),
          if_neg (by decide), if_neg (by decide), if_neg (by decide), hig, huw]
      exact ⟨rfl, rfl⟩

/-- Counterexample to C10 as stated: at a concrete input taking the web
    path, the two implementations return different values (different
    data shape and different provenance tag). -/
theorem C10_counterexample_web_path :
    sources_get_sounding igraFDemo uwyoFDemo "USM00008221" "2026" "01" "14" "00"
        "UWYO" =
      .ok (Sum.inr (uwyoDemoProf, "UWYO-FM35"), "UWYO") ∧
    get_sounding igraFDemo uwyoFDemo "USM00008221" "2026" "01" "14" "00"
        "UWYO" =
      .ok (Sum.inl uwyoDemoProf, "UWYO-FM35") ∧
    sources_get_sounding igraFDemo uwyoFDemo "USM00008221" "2026" "01" "14" "00"
        "UWYO" ≠
      get_sounding igraFDemo uwyoFDemo "USM00008221" "2026" "01" "14" "00"
        "UWYO" := by
  refine ⟨rfl, rfl, fun h => ?_⟩
  have h2 := Except.ok.inj h
  have h3 := congrArg Prod.snd h2
  exact absurd h3 (by decide)

/-- Witness for the amended C10: the agreement branch at an invalid mode
    and the characterized divergence on the demo web path. -/
theorem C10_amended_get_sounding_equiv_witness :
    (sources_get_sounding igraFDemo uwyoFDemo "USM00008221" "2026" "01" "14"
        "00" "FOO" =
      get_sounding igraFDemo uwyoFDemo "USM00008221" "2026" "01" "14"
        "00" "FOO")
    ∧ (get_sounding igraFDemo uwyoFDemo "USM00008221" "2026" "01" "14" "00"
         "UWYO" = .ok (Sum.inl uwyoDemoProf, "UWYO-FM35") ∧
       sources_get_sounding igraFDemo uwyoFDemo "USM00008221" "2026" "01" "14"
         "00" "UWYO" = .ok (Sum.inr (uwyoDemoProf, "UWYO-FM35"), "UWYO")) :=
  ⟨(C10_amended_get_sounding_equiv igraFDemo uwyoFDemo "USM00008221" "2026"
      "01" "14" "00" "FOO").1 (by decide),
   (C10_amended_get_sounding_equiv igraFDemo uwyoFDemo "USM00008221" "2026"
      "01" "14" "00" "UWYO").2.2.2 uwyoDemoProf "UWYO-FM35" (Or.inl (by decide))
      rfl⟩

/-- C4: when both source variants return a body with no usable delimited
    table carrying a pressure column (for example an HTML error page),
    the web reader raises through the line-160 invalid-response site — an
    error distinct by kind from the no-valid-rows error — rather than
    treating the body as zero valid rows. -/
theorem C4_html_disguised_error
    (wc : ℚ → ℚ → ℚ × ℚ) (fetch : String → Except String UwyoDF)
    (df1 df2 : UwyoDF)
    (h1 : fetch "FM35" = .ok df1) (h2 : fetch "BUFR" = .ok df2)
    (hb1 : uwyoGuardFails df1 = true) (hb2 : uwyoGuardFails df2 = true) :
    lecturaSondeoUWyo wc fetch =
      .error (.allFailed (some (.invalidResponse "BUFR")))
    ∧ ∀ s : String, UwyoErr.invalidResponse s ≠ UwyoErr.emptyAfterFilter := by
  constructor
  · unfold lecturaSondeoUWyo uwyoLoop
    rw [show uwyoTryOne wc (fetch "FM35") "FM35" =
          .error (.invalidResponse "FM35") by
        rw [h1]; unfold uwyoTryOne; dsimp only; rw [if_pos hb1]]
    dsimp only
    unfold uwyoLoop
    rw [show uwyoTryOne wc (fetch "BUFR") "BUFR" =
          .error (.invalidResponse "BUFR") by
        rw [h2]; unfold uwyoTryOne; dsimp only; rw [if_pos hb2]]
    rfl
  · intro s h
    exact absurd h (by simp)

/-- Witness for C4 on the concrete HTML error page. -/
theorem C4_html_disguised_error_witness :
    lecturaSondeoUWyo wcDemo htmlDemoFetch =
      .error (.allFailed (some (.invalidResponse "BUFR")))
    ∧ ∀ s : String, UwyoErr.invalidResponse s ≠ UwyoErr.emptyAfterFilter :=
  C4_html_disguised_error wcDemo htmlDemoFetch htmlDemoDF htmlDemoDF
    rfl rfl rfl rfl

/-- Hours before the first success all fail: the loop returns the first
    successful hour's result paired with that hour. -/
theorem tryHours_first_success {α : Type} (gs : String → Except PyErr α) :
    ∀ (pre : List String) (h : String) (post : List String) (r : α)
      (last0 : Option PyErr),
      (∀ x ∈ pre, ∃ e, gs x = .error e) → gs h = .ok r →
      tryHours gs (pre ++ h :: post) last0 = .ok (r, h) := by
  intro pre
  induction pre with
  | nil =>
    intro h post r last0 _ hok
    show tryHours gs (h :: post) last0 = .ok (r, h)
    unfold tryHours
    rw [hok]
  | cons x xs ih =>
    intro h post r last0 hfail hok
    obtain ⟨e, he⟩ := hfail x (by simp)
    show tryHours gs (x :: (xs ++ h :: post)) last0 = .ok (r, h)
    unfold tryHours
    rw [he]
    exact ih h post r (some e) (fun y hy => hfail y (by simp [hy])) hok

/-- When every hour fails, the loop ends carrying the error of the last
    hour in the list. -/
theorem tryHours_all_fail {α : Type} (gs : String → Except PyErr α)
    (f : String → PyErr) :
    ∀ (hs : List String) (hlast : String) (last0 : Option PyErr),
      (∀ x ∈ hs ++ [hlast], gs x = .error (f x)) →
      tryHours gs (hs ++ [hlast]) last0 = .error (some (f hlast)) := by
  intro hs
  induction hs with
  | nil =>
    intro hlast last0 hfail
    show tryHours gs (hlast :: []) last0 = .error (some (f hlast))
    unfold tryHours
    rw [hfail hlast (by simp)]
    rfl
  | cons x xs ih =>
    intro hlast last0 hfail
    show tryHours gs (x :: (xs ++ [hlast])) last0 = .error (some (f hlast))
    unfold tryHours
    rw [hfail x (by simp)]
    exact ih hlast (some (f x)) (fun y hy => hfail y (by simp at hy ⊢; tauto))

/-- C5: hour-mode "AUTO" yields exactly the fixed candidate order
    00, 12, 06, 18, 03, 09, 15, 21; an explicit hour yields a single
    candidate; the loop calls the retrieval function on each candidate in
    order and stops at the first success, returning it with the hour that
    succeeded; and when every candidate fails it raises the error that
    carries the full candidate list and the last underlying error. -/
theorem C5_retry_loop {α : Type} :
    hoursToTry "AUTO" = ["00", "12", "06", "18", "03", "09", "15", "21"]
    ∧ (∀ s : String, s ≠ "AUTO" → (hoursToTry s).length = 1)
    ∧ (∀ (gs : String → Except PyErr α) (pre : List String) (h : String)
         (post : List String) (r : α),
        (∀ x ∈ pre, ∃ e, gs x = .error e) → gs h = .ok r →
        retryLoop gs (pre ++ h :: post) = .ok (r, h))
    ∧ (∀ (gs : String → Except PyErr α) (hs : List String) (hlast : String)
         (f : String → PyErr),
        (∀ x ∈ hs ++ [hlast], gs x = .error (f x)) →
        retryLoop gs (hs ++ [hlast]) =
          .error (hs ++ [hlast], some (f hlast))) := by
  refine ⟨rfl, ?_, ?_, ?_⟩
  · intro s hs
    unfold hoursToTry
    rw [if_neg (by simpa using hs)]
    rfl
  · intro gs pre h post r hfail hok
    unfold retryLoop
    rw [tryHours_first_success gs pre h post r none hfail hok]
  · intro gs hs hlast f hfail
    unfold retryLoop
    rw [tryHours_all_fail gs f hs hlast none hfail]

/-- Witness for C5: the explicit hour "03:00" gives one candidate; a
    stand-in that succeeds only at "06" returns at hour "06" having
    consumed the failures of "00" and "12"; and the always-failing
    stand-in exhausts all eight candidates and reports the last error. -/
theorem C5_retry_loop_witness :
    hoursToTry "AUTO" = ["00", "12", "06", "18", "03", "09", "15", "21"]
    ∧ (hoursToTry "03:00").length = 1
    ∧ retryLoop gsDemo (["00", "12"] ++ "06" :: ["18", "03", "09", "15", "21"]) =
        .ok ((default, "IGRA"), "06")
    ∧ retryLoop gsFailDemo
        (["00", "12", "06", "18", "03", "09", "15"] ++ ["21"]) =
        .error (["00", "12", "06", "18", "03", "09", "15"] ++ ["21"],
                some (.other "no data 21")) :=
  ⟨(C5_retry_loop (α := Profile × String)).1,
   (C5_retry_loop (α := Profile × String)).2.1 "03:00" (by decide),
   (C5_retry_loop (α := Profile × String)).2.2.1 gsDemo ["00", "12"] "06"
     ["18", "03", "09", "15", "21"] (default, "IGRA")
     (by intro x hx; fin_cases hx <;> exact ⟨_, rfl⟩) rfl,
   (C5_retry_loop (α := Profile × String)).2.2.2 gsFailDemo
     ["00", "12", "06", "18", "03", "09", "15"] "21"
     (fun h => .other ("no data " ++ h)) (fun x _ => rfl)⟩

/-- A header line whose timestamp matches the target puts the loop into
    collecting state with the declared count and a zeroed counter. -/
theorem igraStep_header {target line : String} {s : IgraState} {N : Int}
    (hh : pyStartsWith line "#" = true)
    (ht : pySlice line 13 26 = target)
    (hn : pyInt? (pySlice line 32 36) = some N) :
    igraStep target s line =
      .ok { s with reading := true, n_expected := N, n_read := 0 } := by
  simp [igraStep, hh, ht, hn]

/-- A non-header line is ignored entirely when not collecting or when the
    declared count is exhausted. -/
theorem igraStep_skip {target line : String} {s : IgraState}
    (hh : pyStartsWith line "#" = false)
    (hdone : s.reading = false ∨ s.n_expected ≤ s.n_read) :
    igraStep target s line = .ok s := by
  rcases hdone with h | h <;> simp [igraStep, hh, h]

/-- A non-header line while collecting under the declared count is
    counted exactly once, whatever its content, and collecting state is
    preserved. -/
theorem igraStep_count {target line : String} {s : IgraState}
    (hh : pyStartsWith line "#" = false)
    (hr : s.reading = true) (hlt : s.n_read < s.n_expected) :
    ∃ s', igraStep target s line = .ok s' ∧ s'.reading = true ∧
      s'.n_expected = s.n_expected ∧ s'.n_read = s.n_read + 1 := by
  have hcond : ¬(s.n_read ≥ s.n_expected) := not_le.mpr hlt
  simp only [igraStep, hh, hr, hcond, Bool.false_eq_true, if_false,
    Bool.not_true, Bool.false_or, ge_iff_le, decide_eq_true_eq, ite_false]
  rcases hA : pyInt? (pySlice line 9 15) with _ | pres <;>
  rcases hB : pyInt? (pySlice line 22 27) with _ | temp <;>
  rcases hC : pyInt? (pySlice line 34 39) with _ | dtd <;>
  rcases hD : pyInt? (pySlice line 40 45) with _ | wdir <;>
  rcases hE : pyInt? (pySlice line 46 51) with _ | wspd <;>
  simp only [] <;>
  first
  | (split_ifs <;> exact ⟨_, rfl, rfl, rfl, rfl⟩)
  | exact ⟨_, rfl, rfl, rfl, rfl⟩

/-- Once the declared count is exhausted (or collecting never started),
    a run of non-header lines leaves the state untouched. -/
theorem igraScan_skipAll {target : String} :
    ∀ (ds : List String) (s : IgraState),
      (∀ d ∈ ds, pyStartsWith d "#" = false) →
      (s.reading = false ∨ s.n_expected ≤ s.n_read) →
      igraScanFrom target s ds = .ok s := by
  intro ds
  induction ds with
  | nil => intro s _ _; rfl
  | cons d ds ih =>
    intro s hds hdone
    unfold igraScanFrom
    rw [List.foldlM_cons, igraStep_skip (hds d (by simp)) hdone]
    show igraScanFrom target s ds = .ok s
    exact ih s (fun x hx => hds x (by simp [hx])) hdone

/-- While collecting, scanning a run of non-header lines is the same as
    scanning only its first `n_expected - n_read` lines: no data line
    beyond the declared count is consumed. -/
theorem igraScan_take {target : String} :
    ∀ (ds : List String) (s : IgraState),
      s.reading = true →
      (∀ d ∈ ds, pyStartsWith d "#" = false) →
      igraScanFrom target s ds =
        igraScanFrom target s (ds.take (s.n_expected - s.n_read).toNat) := by
  intro ds
  induction ds with
  | nil => intro s _ _; simp
  | cons d ds ih =>
    intro s hr hds
    by_cases hdone : s.n_expected ≤ s.n_read
    · have h0 : (s.n_expected - s.n_read).toNat = 0 := by omega
      rw [h0, List.take_zero]
      exact igraScan_skipAll (d :: ds) s hds (Or.inr hdone)
    · have hlt : s.n_read < s.n_expected := by omega
      obtain ⟨s', hstep, hr', hexp', hread'⟩ := igraStep_count (hds d (by simp)) hr hlt
      have hsucc : (s.n_expected - s.n_read).toNat =
          (s.n_expected - (s.n_read + 1)).toNat + 1 := by omega
      rw [hsucc, List.take_succ_cons]
      unfold igraScanFrom
      rw [List.foldlM_cons, List.foldlM_cons, hstep]
      show igraScanFrom target s' ds =
        igraScanFrom target s' (ds.take (s.n_expected - (s.n_read + 1)).toNat)
      rw [show s.n_expected - (s.n_read + 1) = s'.n_expected - s'.n_read by omega]
      exact ih s' hr' (fun x hx => hds x (by simp [hx]))

/-- While collecting, every non-header line within the declared budget is
    counted exactly once (well-formed or not), and the scan succeeds. -/
theorem igraScan_countAll {target : String} :
    ∀ (ds : List String) (s : IgraState),
      s.reading = true →
      (∀ d ∈ ds, pyStartsWith d "#" = false) →
      (ds.length : Int) ≤ s.n_expected - s.n_read →
      ∃ s', igraScanFrom target s ds = .ok s' ∧
        s'.n_read = s.n_read + ds.length ∧ s'.reading = true ∧
        s'.n_expected = s.n_expected := by
  intro ds
  induction ds with
  | nil => intro s hr _ _; exact ⟨s, rfl, by simp, hr, rfl⟩
  | cons d ds ih =>
    intro s hr hds hbud
    have hlt : s.n_read < s.n_expected := by
      have := hbud
      simp [List.length_cons] at this
      omega
    obtain ⟨s1, hstep, hr1, hexp1, hread1⟩ := igraStep_count (hds d (by simp)) hr hlt
    obtain ⟨s', hscan, hread', hr', hexp'⟩ :=
      ih s1 hr1 (fun x hx => hds x (by simp [hx]))
        (by simp at hbud ⊢; omega)
    refine ⟨s', ?_, ?_, hr', by omega⟩
    · unfold igraScanFrom
      rw [List.foldlM_cons, hstep]
      exact hscan
    · simp [List.length_cons]
      omega

/-- C3: after a header matching the target declares N data lines, the
    archive reader consumes exactly the next N data lines as the block —
    lines that fail parsing or validity are skipped but still counted —
    and no data line beyond the N-th affects the scan before the next
    header: the scan over the full run equals the scan over its first N
    lines, and the counter ends at min N (number of lines present). -/
theorem C3_block_consumption (target hd : String) (N : Int)
    (ds : List String) (s : IgraState) (hN : 0 ≤ N)
    (hh : pyStartsWith hd "#" = true)
    (ht : pySlice hd 13 26 = target)
    (hn : pyInt? (pySlice hd 32 36) = some N)
    (hds : ∀ d ∈ ds, pyStartsWith d "#" = false) :
    igraScanFrom target s (hd :: ds) =
      igraScanFrom target s (hd :: ds.take N.toNat)
    ∧ ∃ s', igraScanFrom target s (hd :: ds) = .ok s' ∧
        (s'.n_read : Int) = min N (ds.length : Int) := by
  have hstep := igraStep_header (s := s) hh ht hn
  have hcons : ∀ l, igraScanFrom target s (hd :: l) =
      igraScanFrom target { s with reading := true, n_expected := N, n_read := 0 } l := by
    intro l
    unfold igraScanFrom
    rw [List.foldlM_cons, hstep]
    rfl
  have htake := @igraScan_take target ds
    { s with reading := true, n_expected := N, n_read := 0 } rfl hds
  have htoNat : (({ s with reading := true, n_expected := N, n_read := 0 } : IgraState).n_expected - ({ s with reading := true, n_expected := N, n_read := 0 } : IgraState).n_read).toNat = N.toNat := by
    simp
  constructor
  · rw [hcons, hcons, htake, htoNat]
  · have hmem : ∀ d ∈ ds.take N.toNat, pyStartsWith d "#" = false :=
      fun d hd2 => hds d (List.take_subset _ _ hd2)
    have hbud : (((ds.take N.toNat).length : Nat) : Int) ≤ ({ s with reading := true, n_expected := N, n_read := 0 } : IgraState).n_expected - ({ s with reading := true, n_expected := N, n_read := 0 } : IgraState).n_read := by
      simp [List.length_take]
      omega
    obtain ⟨s', hscan, hread, -, -⟩ :=
      igraScan_countAll (ds.take N.toNat)
        { s with reading := true, n_expected := N, n_read := 0 } rfl hmem hbud
    refine ⟨s', ?_, ?_⟩
    · rw [hcons, htake, htoNat]
      exact hscan
    · rw [hread]
      simp [List.length_take]
      omega

/-- Witness for C3: a count-2 header followed by three data lines (the
    second malformed); the scan ignores the third line and counts
    exactly two. -/
theorem C3_block_consumption_witness :
    igraScanFrom "2026 01 14 00" igraInit (c3DemoHeader :: c3DemoData) =
      igraScanFrom "2026 01 14 00" igraInit
        (c3DemoHeader :: c3DemoData.take (2 : Int).toNat)
    ∧ ∃ s', igraScanFrom "2026 01 14 00" igraInit
        (c3DemoHeader :: c3DemoData) = .ok s' ∧
        (s'.n_read : Int) = min 2 (c3DemoData.length : Int) :=
  C3_block_consumption "2026 01 14 00" c3DemoHeader 2 c3DemoData igraInit
    (by decide) rfl rfl rfl (by decide)

/-- C6: a data line carrying raw integers pressure=101325, temp=-50,
    dewdep=20 (all above the missing sentinel) decodes to pressure
    1013.25 hPa, temperature -5.0 degC and dew point -7.0 degC, the dew
    point being (temp - dewdep)/10 computed on the raw tenths before
    scaling. -/
theorem C6_unit_decode (target line : String) (s : IgraState) (wd ws : Int)
    (hnh : pyStartsWith line "#" = false)
    (hr : s.reading = true) (hlt : s.n_read < s.n_expected)
    (hp : pyInt? (pySlice line 9 15) = some 101325)
    (ht : pyInt? (pySlice line 22 27) = some (-50))
    (hd : pyInt? (pySlice line 34 39) = some 20)
    (hw1 : pyInt? (pySlice line 40 45) = some wd)
    (hw2 : pyInt? (pySlice line 46 51) = some ws) :
    (igraStep target s line).map (fun s2 => (s2.ps, s2.Ts, s2.Tds)) =
      .ok (s.ps ++ [(1013.25 : ℚ)], s.Ts ++ [(-5 : ℚ)],
           s.Tds ++ [some (-7 : ℚ)]) := by
  have hcond : ¬(s.n_read ≥ s.n_expected) := not_le.mpr hlt
  have hv1 : mkRat 101325 100 = (1013.25 : ℚ) := by
    rw [Rat.mkRat_eq_div]; norm_num
  have hv2 : mkRat (-50) 10 = (-5 : ℚ) := by
    rw [Rat.mkRat_eq_div]; norm_num
  have hv3 : mkRat (-70) 10 = (-7 : ℚ) := by
    rw [Rat.mkRat_eq_div]; norm_num
  simp only [igraStep, hnh, hr, hcond, Bool.false_eq_true, if_false,
    Bool.not_true, Bool.false_or, ge_iff_le, decide_eq_true_eq, ite_false,
    hp, ht, hd, hw1, hw2]
  rw [if_neg (by decide)]
  rw [if_neg (by decide)]
  simp only [hv1, hv2, hv3, Except.map]
  norm_num [Rat.mkRat_eq_div]

/-- Witness for C6 on a concrete data line in collecting state. -/
theorem C6_unit_decode_witness :
    (igraStep "2026 01 14 00" c6DemoState
        "21 -9999 101325         -50          20   180   100").map
      (fun s2 => (s2.ps, s2.Ts, s2.Tds)) =
      .ok (c6DemoState.ps ++ [(1013.25 : ℚ)], c6DemoState.Ts ++ [(-5 : ℚ)],
           c6DemoState.Tds ++ [some (-7 : ℚ)]) :=
  C6_unit_decode "2026 01 14 00"
    "21 -9999 101325         -50          20   180   100" c6DemoState 180 100
    rfl rfl (by decide) rfl rfl rfl rfl rfl
